import Mathlib

/-!
Shallow embedding of the Intel winsys buffer-management core of this
repository (the Mesa-derived `intel_winsys` / `intel_bo` layer): buffer
relocation recording, tiling validation, aperture feasibility checks,
submission flag computation, fence waiting, reference counting, handle
import/export, and winsys construction/teardown.

Kernel- and libdrm-side behaviour (ioctl results, applied tiling modes,
allocation success) is passed in explicitly as parameters, so each embedded
function is a pure function of its inputs and of the kernel's responses.
Machine integers are modelled as `Nat` with explicit `% 2 ^ 64` where the C
code performs 64-bit arithmetic that can wrap.
-/

namespace IntelWinsys

/-! ### Kernel ABI constants (from the i915 kernel uapi header) -/

/-- Kernel GEM read/write domain bit for the render engine
(`I915_GEM_DOMAIN_RENDER` in the i915 uapi). -/
def I915_GEM_DOMAIN_RENDER : Nat := 0x00000002

/-- Kernel GEM domain bit for the sampler (`I915_GEM_DOMAIN_SAMPLER`). -/
def I915_GEM_DOMAIN_SAMPLER : Nat := 0x00000004

/-- Kernel GEM domain bit for the instruction cache
(`I915_GEM_DOMAIN_INSTRUCTION`). -/
def I915_GEM_DOMAIN_INSTRUCTION : Nat := 0x00000010

/-- Kernel GEM domain bit for the vertex fetch path
(`I915_GEM_DOMAIN_VERTEX`). -/
def I915_GEM_DOMAIN_VERTEX : Nat := 0x00000020

/-- The errno value `ETIME` used by `intel_bo_wait` to recognise a
timeout-expired wait (Linux `ETIME`; the source falls back to `ETIMEDOUT`
where `ETIME` is absent, the distinction does not matter here: it is the
single distinguished code tested by the function). -/
def ETIME : Int := 62

/-! ### Relocation flags and `intel_bo_add_reloc` -/

/-- The relocation flag bits `INTEL_RELOC_WRITE`, `INTEL_RELOC_GGTT` and
`INTEL_RELOC_FENCE` tested by `intel_bo_add_reloc`, represented by the
outcome of each bit test. -/
structure RelocFlags where
  write : Bool
  ggtt : Bool
  fence : Bool
deriving DecidableEq, Repr

/-- What a call to `intel_bo_add_reloc` hands to the kernel relocation
recording, together with its out-parameter and return value:
which libdrm path was used (fenced or standard), the computed access
domains, the presumed address written through `presumed_offset`, and the
status returned (the kernel recording call's own error, passed through). -/
structure RelocCall where
  fenced : Bool
  read_domains : Nat
  write_domain : Nat
  presumed_offset : Nat
  err : Int
deriving DecidableEq, Repr

/-- Embedding of `intel_bo_add_reloc`.  `target_offset64` is the target
buffer object's current presumed GPU address (`gem_bo(target_bo)->offset64`,
a `uint64_t`), `target_offset` the `uint32_t` byte offset into the target,
`flags` the relocation flags, and `kernel_err` the status returned by the
libdrm emit-reloc call.  The access domains are computed from the WRITE and
GGTT bits exactly as in the source; the presumed offset is the 64-bit sum
`offset64 + target_offset`. -/
def intel_bo_add_reloc (target_offset64 : Nat) (target_offset : Nat)
    (flags : RelocFlags) (kernel_err : Int) : RelocCall :=
  let write_domain : Nat :=
    if flags.write then
      if flags.ggtt then I915_GEM_DOMAIN_INSTRUCTION else I915_GEM_DOMAIN_RENDER
    else 0
  let read_domains : Nat :=
    if flags.write then write_domain
    else I915_GEM_DOMAIN_RENDER ||| I915_GEM_DOMAIN_SAMPLER |||
         I915_GEM_DOMAIN_INSTRUCTION ||| I915_GEM_DOMAIN_VERTEX
  { fenced := flags.fence
    read_domains := read_domains
    write_domain := write_domain
    presumed_offset := (target_offset64 + target_offset) % 2 ^ 64
    err := kernel_err }

/-! ### Tiling modes and `intel_bo_set_tiling` -/

/-- The tiling modes `INTEL_TILING_NONE`, `INTEL_TILING_X`,
`INTEL_TILING_Y` of a buffer object. -/
inductive TilingMode where
  | noTiling
  | tileX
  | tileY
deriving DecidableEq, Repr

/-- Observable outcome of a call to `intel_bo_set_tiling`: the returned
status, whether the kernel set-tiling call was reached, and whether the
`assert(!"tiling mismatch")` assertion fired. -/
structure SetTilingResult where
  status : Int
  kernel_called : Bool
  assertion_fired : Bool
deriving DecidableEq, Repr

/-- Embedding of `intel_bo_set_tiling`.  `kernel_err` is the status of the
kernel set-tiling call and `applied` the tiling mode the kernel reports
back through `real_tiling` (the kernel may adjust it); both only matter on
the paths that reach the kernel call. -/
def intel_bo_set_tiling (tiling : TilingMode) (pitch : Nat)
    (kernel_err : Int) (applied : TilingMode) : SetTilingResult :=
  match tiling with
  | TilingMode.tileX =>
      if pitch % 512 ≠ 0 then
        { status := -1, kernel_called := false, assertion_fired := false }
      else if kernel_err ≠ 0 ∨ applied ≠ tiling then
        { status := -1, kernel_called := true, assertion_fired := true }
      else
        { status := 0, kernel_called := true, assertion_fired := false }
  | TilingMode.tileY =>
      if pitch % 128 ≠ 0 then
        { status := -1, kernel_called := false, assertion_fired := false }
      else if kernel_err ≠ 0 ∨ applied ≠ tiling then
        { status := -1, kernel_called := true, assertion_fired := true }
      else
        { status := 0, kernel_called := true, assertion_fired := false }
  | TilingMode.noTiling =>
      if kernel_err ≠ 0 ∨ applied ≠ tiling then
        { status := -1, kernel_called := true, assertion_fired := true }
      else
        { status := 0, kernel_called := true, assertion_fired := false }

/-! ### `intel_winsys_can_submit_bo` -/

/-- Modelled from the spec: `drm_intel_bufmgr_check_aperture_space` is
libdrm allocator code not present in this repository.  Per the spec it
reports insufficient space (a nonzero result) exactly when the
deduplicated total size of the buffer objects in the array exceeds the
device's total aperture as tracked by the allocator.  Buffer objects are
identified by `Nat` handles and `size` gives each object's size. -/
def check_aperture_space (size : Nat → Nat) (aperture_total : Nat)
    (bo_array : List Nat) : Bool :=
  decide (aperture_total < (bo_array.dedup.map size).sum)

/-- Embedding of `intel_winsys_can_submit_bo`: the negation of the
allocator's aperture-space check. -/
def intel_winsys_can_submit_bo (size : Nat → Nat) (aperture_total : Nat)
    (bo_array : List Nat) : Bool :=
  !(check_aperture_space size aperture_total bo_array)

/-! ### Rings and `intel_winsys_submit_bo` -/

/-- Modelled from the spec: the header defining `enum intel_ring_type` is
not under the provided sources.  Per the spec the low bits of the
execution flags select the ring; the values mirror the kernel execbuf
ring selectors (`I915_EXEC_RENDER` = 1, BSD = 2, BLT = 3). -/
inductive RingType where
  | render
  | bsd
  | blt
deriving DecidableEq, Repr

/-- Numeric ring selector as used in `exec_flags = (unsigned long) ring |
flags`. -/
def ringSelector : RingType → Nat
  | RingType.render => 1
  | RingType.bsd => 2
  | RingType.blt => 3

/-- What `intel_winsys_submit_bo` hands to the kernel: whether a logical
hardware context is passed (the context-exec path) and the merged
execution-flags value. -/
structure SubmitCall where
  uses_context : Bool
  exec_flags : Nat
deriving DecidableEq, Repr

/-- Embedding of `intel_winsys_submit_bo`.  `has_ctx` records whether
`winsys->ctx` is non-null.  A context is selected only for the render
ring, and the execution flags are the ring selector OR'd with the
caller-supplied flags. -/
def intel_winsys_submit_bo (ring : RingType) (has_ctx : Bool)
    (flags : Nat) : SubmitCall :=
  { uses_context := (if ring = RingType.render then has_ctx else false)
    exec_flags := ringSelector ring ||| flags }

/-! ### `intel_bo_wait` -/

/-- Embedding of `intel_bo_wait`.  `timeout` is the caller's `int64_t`
timeout; `gem_wait_err` is the status returned by the kernel timed wait
(only consulted when `timeout >= 0`: the indefinite
`drm_intel_bo_wait_rendering` path returns no status).  Errors other than
`-ETIME` are folded into success ("consider the bo idle on errors"). -/
def intel_bo_wait (timeout : Int) (gem_wait_err : Int) : Int :=
  let err : Int := if timeout ≥ 0 then gem_wait_err else 0
  if err ≠ 0 ∧ err ≠ -ETIME then 0 else err

/-! ### Reference counting: `intel_bo_ref` / `intel_bo_unref` -/

/-- The observable state touched by the reference-counting wrappers: the
shared reference count of the underlying GEM object and a counter of
kernel/libdrm refcount calls made. -/
structure RefState where
  refcount : Nat
  kernel_calls : Nat
deriving DecidableEq, Repr

/-- Embedding of `intel_bo_ref`: on a non-null handle it calls
`drm_intel_bo_reference` and returns its argument; on a null handle it
does nothing and returns null. -/
def intel_bo_ref (bo : Option Nat) (st : RefState) : Option Nat × RefState :=
  match bo with
  | some b => (some b, { refcount := st.refcount + 1,
                         kernel_calls := st.kernel_calls + 1 })
  | none => (none, st)

/-- Embedding of `intel_bo_unref`: on a non-null handle it calls
`drm_intel_bo_unreference`; on a null handle it does nothing. -/
def intel_bo_unref (bo : Option Nat) (st : RefState) : RefState :=
  match bo with
  | some _ => { refcount := st.refcount - 1,
                kernel_calls := st.kernel_calls + 1 }
  | none => st

/-! ### Winsys construction: `probe_winsys` / `intel_winsys_create_for_fd` -/

/-- Kernel-side outcomes consulted by `probe_winsys`, one per step that can
fail or vary: whether `I915_PARAM_HAS_RELAXED_DELTA` reads back nonzero,
whether the aperture-size query succeeds, whether the swizzling-test
buffer allocation succeeds, and whether logical-context creation
succeeds.  Optional capabilities (llc, ppgtt, timestamp, sol-reset) never
fail the probe and are omitted. -/
structure ProbeEnv where
  has_relaxed_delta : Bool
  aperture_ok : Bool
  swizzle_bo_ok : Bool
  ctx_ok : Bool
deriving DecidableEq, Repr

/-- Outcome of `probe_winsys`: the returned boolean, whether the logical
context is live (created and not destroyed) on return, and whether the
short-lived swizzling-test buffer object is live on return (it is always
unreferenced inside `test_address_swizzling`). -/
structure ProbeResult where
  ok : Bool
  ctx_live : Bool
  test_bo_live : Bool
deriving DecidableEq, Repr

/-- Embedding of `probe_winsys`: the RELAXED_DELTA check and the aperture
query can each fail the probe before any context exists; the
swizzling test allocates and immediately releases a test buffer; context
creation is the last fallible step, so a failed probe never holds a live
context. -/
def probe_winsys (env : ProbeEnv) : ProbeResult :=
  if !env.has_relaxed_delta then
    { ok := false, ctx_live := false, test_bo_live := false }
  else if !env.aperture_ok then
    { ok := false, ctx_live := false, test_bo_live := false }
  else if !env.ctx_ok then
    { ok := false, ctx_live := false, test_bo_live := false }
  else
    { ok := true, ctx_live := true, test_bo_live := false }

/-- Kernel/runtime outcomes consulted by `intel_winsys_create_for_fd`:
whether the winsys allocation (`icd_instance_alloc`) succeeds, whether
`drm_intel_bufmgr_gem_init` succeeds, and the probe environment. -/
structure CreateEnv where
  alloc_ok : Bool
  bufmgr_ok : Bool
  probe : ProbeEnv
deriving DecidableEq, Repr

/-- Outcome of `intel_winsys_create_for_fd`: whether a winsys was returned,
and which resources are still allocated at return (the winsys allocation
itself, the kernel buffer-manager handle, the logical context, the
probe's test buffer).  On success they are owned by the returned winsys;
on failure none may remain. -/
structure CreateResult where
  success : Bool
  winsys_alloc_live : Bool
  bufmgr_live : Bool
  ctx_live : Bool
  test_bo_live : Bool
deriving DecidableEq, Repr

/-- Embedding of `intel_winsys_create_for_fd`: allocation failure returns
null with nothing allocated; buffer-manager initialization failure frees
the winsys allocation; probe failure destroys the buffer manager and
frees the winsys allocation. -/
def intel_winsys_create_for_fd (env : CreateEnv) : CreateResult :=
  if !env.alloc_ok then
    { success := false, winsys_alloc_live := false, bufmgr_live := false,
      ctx_live := false, test_bo_live := false }
  else if !env.bufmgr_ok then
    { success := false, winsys_alloc_live := false, bufmgr_live := false,
      ctx_live := false, test_bo_live := false }
  else
    let p := probe_winsys env.probe
    if !p.ok then
      { success := false, winsys_alloc_live := false, bufmgr_live := false,
        ctx_live := p.ctx_live, test_bo_live := p.test_bo_live }
    else
      { success := true, winsys_alloc_live := true, bufmgr_live := true,
        ctx_live := p.ctx_live, test_bo_live := p.test_bo_live }

/-! ### Handle exchange: `intel_winsys_import_handle` /
`intel_winsys_export_handle` -/

/-- The `intel_winsys_handle` type tag: `INTEL_WINSYS_HANDLE_SHARED` (a
global GEM name), `INTEL_WINSYS_HANDLE_KMS` (a raw kernel object handle),
`INTEL_WINSYS_HANDLE_FD` (a prime file descriptor). -/
inductive HandleType where
  | shared
  | kms
  | fd
deriving DecidableEq, Repr

/-- Kernel outcomes consulted by `intel_winsys_import_handle`: whether the
kernel can resolve the name/descriptor into a buffer object, whether the
subsequent get-tiling query fails, and the tiling the kernel reports. -/
structure ImportEnv where
  create_ok : Bool
  get_tiling_err : Bool
  real_tiling : TilingMode
deriving DecidableEq, Repr

/-- Outcome of `intel_winsys_import_handle`: whether a buffer object is
returned, whether any kernel call was made, and the tiling/pitch written
through the in-out parameters (only on success). -/
structure ImportResult where
  bo_returned : Bool
  kernel_called : Bool
  out_tiling : Option TilingMode
  out_pitch : Option Nat
deriving DecidableEq, Repr

/-- Embedding of `intel_winsys_import_handle`.  The switch on the handle
type sends `SHARED` to the flink-name path and `FD` to the prime path;
every other tag (`KMS` included) takes the default branch, which sets the
buffer object to null without calling the kernel, so the function returns
null.  `stride` is the stride metadata carried by the handle; on success
it is returned through the pitch out-parameter and the kernel-reported
tiling through the tiling out-parameter. -/
def intel_winsys_import_handle (htype : HandleType) (stride : Nat)
    (env : ImportEnv) : ImportResult :=
  match htype with
  | HandleType.kms =>
      { bo_returned := false, kernel_called := false,
        out_tiling := none, out_pitch := none }
  | _ =>
      if !env.create_ok then
        { bo_returned := false, kernel_called := true,
          out_tiling := none, out_pitch := none }
      else if env.get_tiling_err then
        { bo_returned := false, kernel_called := true,
          out_tiling := none, out_pitch := none }
      else
        { bo_returned := true, kernel_called := true,
          out_tiling := some env.real_tiling, out_pitch := some stride }

/-- The errno value `EINVAL` negated by the export default branch. -/
def EINVAL : Int := 22

/-- Outcome of `intel_winsys_export_handle`: the returned status and the
handle value stored into the out structure, when one is. -/
structure ExportResult where
  err : Int
  handle_set : Bool
deriving DecidableEq, Repr

/-- Embedding of `intel_winsys_export_handle`.  `SHARED` flinks a global
name (`flink_err` is that call's status), `KMS` copies the raw GEM handle
with no fallible kernel call, `FD` exports a prime descriptor
(`prime_err` is that call's status).  Only recognised tags exist in the
enum, so the `-EINVAL` default branch is unreachable from this type. -/
def intel_winsys_export_handle (htype : HandleType)
    (flink_err : Int) (prime_err : Int) : ExportResult :=
  match htype with
  | HandleType.shared =>
      if flink_err ≠ 0 then { err := flink_err, handle_set := false }
      else { err := 0, handle_set := true }
  | HandleType.kms => { err := 0, handle_set := true }
  | HandleType.fd =>
      if prime_err ≠ 0 then { err := prime_err, handle_set := false }
      else { err := 0, handle_set := true }

/-! ### Theorems -/

/-- C1: for every call to `intel_bo_add_reloc`, the computed access
domains are a pure function of the WRITE and GGTT flag bits: WRITE and
GGTT set gives write-domain = read-domain = INSTRUCTION; WRITE set and
GGTT clear gives write-domain = read-domain = RENDER; WRITE clear (for
either GGTT) gives write-domain none and read-domain
RENDER|SAMPLER|INSTRUCTION|VERTEX. -/
theorem add_reloc_domains_pure (t toff : Nat) (flags : RelocFlags)
    (kerr : Int) :
    (flags.write = true → flags.ggtt = true →
      (intel_bo_add_reloc t toff flags kerr).write_domain =
          I915_GEM_DOMAIN_INSTRUCTION ∧
      (intel_bo_add_reloc t toff flags kerr).read_domains =
          I915_GEM_DOMAIN_INSTRUCTION) ∧
    (flags.write = true → flags.ggtt = false →
      (intel_bo_add_reloc t toff flags kerr).write_domain =
          I915_GEM_DOMAIN_RENDER ∧
      (intel_bo_add_reloc t toff flags kerr).read_domains =
          I915_GEM_DOMAIN_RENDER) ∧
    (flags.write = false →
      (intel_bo_add_reloc t toff flags kerr).write_domain = 0 ∧
      (intel_bo_add_reloc t toff flags kerr).read_domains =
          (I915_GEM_DOMAIN_RENDER ||| I915_GEM_DOMAIN_SAMPLER |||
           I915_GEM_DOMAIN_INSTRUCTION ||| I915_GEM_DOMAIN_VERTEX)) := by
  rcases flags with ⟨w, g, f⟩
  cases w <;> cases g <;>
    simp [intel_bo_add_reloc]

/-- Witness for C1: a concrete WRITE+GGTT relocation records the
instruction domain for both read and write. -/
theorem add_reloc_domains_pure_witness :
    (intel_bo_add_reloc 4096 16 ⟨true, true, false⟩ 0).write_domain =
        I915_GEM_DOMAIN_INSTRUCTION ∧
    (intel_bo_add_reloc 4096 16 ⟨true, true, false⟩ 0).read_domains =
        I915_GEM_DOMAIN_INSTRUCTION :=
  (add_reloc_domains_pure 4096 16 ⟨true, true, false⟩ 0).1 rfl rfl

/-- C2: the presumed address returned through the `presumed_offset`
out-parameter of `intel_bo_add_reloc` equals the target buffer object's
presumed base address plus the target offset, as read at the moment of the
call (whenever the 64-bit sum does not wrap). -/
theorem add_reloc_presumed_offset (t toff : Nat) (flags : RelocFlags)
    (kerr : Int) (h : t + toff < 2 ^ 64) :
    (intel_bo_add_reloc t toff flags kerr).presumed_offset = t + toff := by
  simp only [intel_bo_add_reloc]
  exact Nat.mod_eq_of_lt h

/-- Witness for C2: a concrete relocation against a target presumed at
4096 with target offset 16 reports presumed address 4112. -/
theorem add_reloc_presumed_offset_witness :
    (intel_bo_add_reloc 4096 16 ⟨true, false, false⟩ 0).presumed_offset =
        4096 + 16 :=
  add_reloc_presumed_offset 4096 16 ⟨true, false, false⟩ 0 (by norm_num)

/-- C3: `intel_bo_set_tiling` rejects X-tiling with pitch not a multiple
of 512 and Y-tiling with pitch not a multiple of 128 before any kernel
call; for mode none no pitch constraint is checked and the kernel call is
always reached. -/
theorem set_tiling_precheck (pitch : Nat) (kerr : Int)
    (applied : TilingMode) :
    (pitch % 512 ≠ 0 →
      intel_bo_set_tiling TilingMode.tileX pitch kerr applied =
        { status := -1, kernel_called := false, assertion_fired := false }) ∧
    (pitch % 128 ≠ 0 →
      intel_bo_set_tiling TilingMode.tileY pitch kerr applied =
        { status := -1, kernel_called := false, assertion_fired := false }) ∧
    (intel_bo_set_tiling TilingMode.noTiling pitch kerr applied).kernel_called
        = true := by
  refine ⟨fun h => ?_, fun h => ?_, ?_⟩
  · simp [intel_bo_set_tiling, h]
  · simp [intel_bo_set_tiling, h]
  · by_cases hb : kerr ≠ 0 ∨ applied ≠ TilingMode.noTiling <;>
      simp [intel_bo_set_tiling, hb]

/-- Witness for C3: X-tiling with pitch 500 is rejected with no kernel
call, and mode none with the same pitch reaches the kernel call. -/
theorem set_tiling_precheck_witness :
    intel_bo_set_tiling TilingMode.tileX 500 0 TilingMode.tileX =
      { status := -1, kernel_called := false, assertion_fired := false } ∧
    (intel_bo_set_tiling TilingMode.noTiling 500 0
        TilingMode.noTiling).kernel_called = true :=
  ⟨(set_tiling_precheck 500 0 TilingMode.tileX).1 (by decide),
   (set_tiling_precheck 500 0 TilingMode.noTiling).2.2⟩

/-- C4: `intel_winsys_can_submit_bo` returns true if and only if the
deduplicated total size of the buffer objects in the working set is within
the device's aperture budget as tracked by the allocator; equivalently it
returns false iff that deduplicated sum exceeds the aperture. -/
theorem can_submit_bo_iff (size : Nat → Nat) (aperture_total : Nat)
    (bo_array : List Nat) :
    intel_winsys_can_submit_bo size aperture_total bo_array = true ↔
      (bo_array.dedup.map size).sum ≤ aperture_total := by
  simp [intel_winsys_can_submit_bo, check_aperture_space, Nat.not_lt]

/-- Witness for C4: three handles of size 10 each, one duplicated, fit a
30-byte aperture because the deduplicated sum is 20. -/
theorem can_submit_bo_iff_witness :
    intel_winsys_can_submit_bo (fun _ => 10) 30 [1, 2, 1] = true :=
  (can_submit_bo_iff (fun _ => 10) 30 [1, 2, 1]).mpr (by decide)

/-- C5: `intel_bo_wait` with a negative timeout returns success; with a
non-negative timeout, the timeout-expiration code `-ETIME` is the only
status passed through, and every other wait error is folded into success
(the bo is considered idle). -/
theorem bo_wait_folds_errors (timeout gem_wait_err : Int) :
    (timeout < 0 → intel_bo_wait timeout gem_wait_err = 0) ∧
    (0 ≤ timeout →
      (gem_wait_err = -ETIME →
        intel_bo_wait timeout gem_wait_err = -ETIME) ∧
      (gem_wait_err ≠ -ETIME →
        intel_bo_wait timeout gem_wait_err = 0)) := by
  unfold intel_bo_wait
  refine ⟨fun h => ?_, fun h => ⟨fun he => ?_, fun he => ?_⟩⟩
  · simp [not_le.mpr h]
  · simp [h, he, ETIME]
  · simp only [h, if_pos le_rfl]
    by_cases hz : gem_wait_err = 0
    · simp [hz]
    · simp [hz, he]

/-- Witness for C5: an indefinite wait returns 0 even when the kernel
status would be an error; a timed wait passes `-ETIME` through and folds
`-5` (an EIO-style error) into 0. -/
theorem bo_wait_folds_errors_witness :
    intel_bo_wait (-1) (-5) = 0 ∧
    intel_bo_wait 10 (-62) = -62 ∧
    intel_bo_wait 10 (-5) = 0 :=
  ⟨(bo_wait_folds_errors (-1) (-5)).1 (by norm_num),
   ((bo_wait_folds_errors 10 (-62)).2 (by norm_num)).1 (by decide),
   ((bo_wait_folds_errors 10 (-5)).2 (by norm_num)).2 (by decide)⟩

/-- C6: whenever `intel_winsys_create_for_fd` fails — allocation failure,
buffer-manager initialization failure, or probe failure — no
partially-initialized winsys escapes: the winsys allocation, the kernel
buffer-manager handle, the logical context and the probe's test buffer
are all released before returning. -/
theorem create_for_fd_no_leak (env : CreateEnv)
    (h : (intel_winsys_create_for_fd env).success = false) :
    (intel_winsys_create_for_fd env).winsys_alloc_live = false ∧
    (intel_winsys_create_for_fd env).bufmgr_live = false ∧
    (intel_winsys_create_for_fd env).ctx_live = false ∧
    (intel_winsys_create_for_fd env).test_bo_live = false := by
  rcases env with ⟨a, b, r, ap, s, c⟩
  cases a <;> cases b <;> cases r <;> cases ap <;> cases c <;>
    simp_all [intel_winsys_create_for_fd, probe_winsys]

/-- Witness for C6: a failed buffer-manager initialization yields a failed
creation with no live resources. -/
theorem create_for_fd_no_leak_witness :
    (intel_winsys_create_for_fd
        ⟨true, false, ⟨true, true, true, true⟩⟩).winsys_alloc_live = false ∧
    (intel_winsys_create_for_fd
        ⟨true, false, ⟨true, true, true, true⟩⟩).bufmgr_live = false ∧
    (intel_winsys_create_for_fd
        ⟨true, false, ⟨true, true, true, true⟩⟩).ctx_live = false ∧
    (intel_winsys_create_for_fd
        ⟨true, false, ⟨true, true, true, true⟩⟩).test_bo_live = false :=
  create_for_fd_no_leak ⟨true, false, ⟨true, true, true, true⟩⟩ (by decide)

/-- C7: `intel_winsys_submit_bo` passes a logical hardware context to the
kernel exactly when the ring is the render ring and the winsys holds a
context, and the execution flags given to the kernel equal the ring
selector OR'd with the caller-supplied flags. -/
theorem submit_bo_ctx_and_flags (ring : RingType) (has_ctx : Bool)
    (flags : Nat) :
    ((intel_winsys_submit_bo ring has_ctx flags).uses_context = true ↔
      (ring = RingType.render ∧ has_ctx = true)) ∧
    (intel_winsys_submit_bo ring has_ctx flags).exec_flags =
      (ringSelector ring ||| flags) := by
  cases ring <;> cases has_ctx <;>
    simp [intel_winsys_submit_bo]

/-- Witness for C7: a render-ring submission on a winsys holding a context
uses the context, and the execution flags merge ring selector and caller
flags. -/
theorem submit_bo_ctx_and_flags_witness :
    (intel_winsys_submit_bo RingType.render true 64).uses_context = true ∧
    (intel_winsys_submit_bo RingType.render true 64).exec_flags =
      (ringSelector RingType.render ||| 64) :=
  ⟨(submit_bo_ctx_and_flags RingType.render true 64).1.mpr ⟨rfl, rfl⟩,
   (submit_bo_ctx_and_flags RingType.render true 64).2⟩

/-- C8: when `intel_bo_set_tiling` passes the alignment pre-check and
reaches the kernel call, a kernel error or an applied tiling different
from the requested one fires the tiling-mismatch assertion and returns the
fatal status `-1` rather than a recoverable error. -/
theorem set_tiling_mismatch_fatal (tiling : TilingMode) (pitch : Nat)
    (kerr : Int) (applied : TilingMode)
    (hpre : (intel_bo_set_tiling tiling pitch kerr applied).kernel_called
        = true)
    (hbad : kerr ≠ 0 ∨ applied ≠ tiling) :
    (intel_bo_set_tiling tiling pitch kerr applied).assertion_fired = true ∧
    (intel_bo_set_tiling tiling pitch kerr applied).status = -1 := by
  cases tiling
  case noTiling =>
    simp only [intel_bo_set_tiling] at hpre ⊢
    rw [if_pos hbad]
    exact ⟨rfl, rfl⟩
  case tileX =>
    simp only [intel_bo_set_tiling] at hpre ⊢
    by_cases hp : pitch % 512 ≠ 0
    · rw [if_pos hp] at hpre
      simp at hpre
    · rw [if_neg hp] at hpre ⊢
      rw [if_pos hbad]
      exact ⟨rfl, rfl⟩
  case tileY =>
    simp only [intel_bo_set_tiling] at hpre ⊢
    by_cases hp : pitch % 128 ≠ 0
    · rw [if_pos hp] at hpre
      simp at hpre
    · rw [if_neg hp] at hpre ⊢
      rw [if_pos hbad]
      exact ⟨rfl, rfl⟩

/-- Witness for C8: requesting X-tiling with an aligned pitch while the
kernel call fails fires the assertion and returns -1. -/
theorem set_tiling_mismatch_fatal_witness :
    (intel_bo_set_tiling TilingMode.tileX 512 (-22)
        TilingMode.tileX).assertion_fired = true ∧
    (intel_bo_set_tiling TilingMode.tileX 512 (-22)
        TilingMode.tileX).status = -1 :=
  set_tiling_mismatch_fatal TilingMode.tileX 512 (-22) TilingMode.tileX
    (by decide) (Or.inl (by decide))

/-- C9: `intel_bo_ref` always returns its argument unchanged, and on a
null handle both `intel_bo_ref` and `intel_bo_unref` are no-ops: no
reference-count change, no kernel call, and no failure. -/
theorem bo_ref_unref_null_safe (bo : Option Nat) (st : RefState) :
    (intel_bo_ref bo st).1 = bo ∧
    intel_bo_ref none st = (none, st) ∧
    intel_bo_unref none st = st := by
  cases bo <;> simp [intel_bo_ref, intel_bo_unref]

/-- C10: `intel_winsys_import_handle` accepts only the shared-name and
file-descriptor handle variants: a KMS (kernel object) handle is rejected
with a null result and no kernel call, even though
`intel_winsys_export_handle` can produce KMS handles successfully. -/
theorem import_handle_rejects_kms (stride : Nat) (env : ImportEnv)
    (flink_err prime_err : Int) :
    (intel_winsys_import_handle HandleType.kms stride env).bo_returned
        = false ∧
    (intel_winsys_import_handle HandleType.kms stride env).kernel_called
        = false ∧
    (intel_winsys_export_handle HandleType.kms flink_err prime_err).err
        = 0 ∧
    (intel_winsys_export_handle HandleType.kms flink_err
        prime_err).handle_set = true := by
  simp [intel_winsys_import_handle, intel_winsys_export_handle]

end IntelWinsys
